import Mathlib

set_option maxHeartbeats 1000000

/-! Verification development for the Waku test-automation framework
(src/src/lib.rs).  The framework's operations perform Docker and HTTP side
effects; here each operation is embedded as a pure function over an explicit
model of those external outcomes (a transport is a map from attempt number to
an HTTP result, the container runtime is a tuple of `Except` results), and the
control flow of the Rust source is reproduced faithfully, including the retry
budget, backoff sleeps, dual-shape response parsing, best-effort cleanup and
port-map construction. -/

/-- Shallow model of a JSON document as decoded by serde_json: objects are
ordered field lists; numbers are integers (no value in this development
carries a fractional part). -/
inductive Json where
  | null : Json
  | bool (b : Bool) : Json
  | num (n : Int) : Json
  | str (s : String) : Json
  | arr (items : List Json) : Json
  | obj (fields : List (String × Json)) : Json

/-- Mirror of `struct NodeInfo` (src/src/lib.rs lines 23-29): the serde field
names are "enrUri" and "listenAddresses". -/
structure NodeInfo where
  enr_uri : String
  listen_addresses : List String
deriving Repr, DecidableEq

def decodeString : Json → Option String
  | .str s => some s
  | _ => none

def decodeStringList : Json → Option (List String)
  | .arr items => items.mapM decodeString
  | _ => none

/-- Field loop of serde's derived deserializer for `NodeInfo`: walks the
object's fields, accepts each expected field at most once (a duplicate is an
error), ignores unknown fields, and at the end requires both fields present. -/
def decodeNodeInfoFields : List (String × Json) → Option String → Option (List String) → Option NodeInfo
  | [], some enr, some addrs => some ⟨enr, addrs⟩
  | [], _, _ => none
  | (k, v) :: rest, enr0, addrs0 =>
    if k = "enrUri" then
      match enr0, decodeString v with
      | none, some s => decodeNodeInfoFields rest (some s) addrs0
      | _, _ => none
    else if k = "listenAddresses" then
      match addrs0, decodeStringList v with
      | none, some l => decodeNodeInfoFields rest enr0 (some l)
      | _, _ => none
    else decodeNodeInfoFields rest enr0 addrs0

/-- Deserialization of a bare `NodeInfo` document. -/
def decodeNodeInfo : Json → Option NodeInfo
  | .obj fields => decodeNodeInfoFields fields none none
  | _ => none

/-- Field loop of serde's derived deserializer for `ApiResponse<T>`
(src/src/lib.rs lines 31-34): a single required field "data". -/
def decodeApiResponseFields (f : Json → Option α) : List (String × Json) → Option α → Option α
  | [], some r => some r
  | [], none => none
  | (k, v) :: rest, acc =>
    if k = "data" then
      match acc, f v with
      | none, some r => decodeApiResponseFields f rest (some r)
      | _, _ => none
    else decodeApiResponseFields f rest acc

def decodeApiResponse (f : Json → Option α) : Json → Option α
  | .obj fields => decodeApiResponseFields f fields none
  | _ => none

/-- Deserialization of an `ApiResponse<NodeInfo>` envelope, yielding its data. -/
def decodeApiData : Json → Option NodeInfo :=
  decodeApiResponse decodeNodeInfo

/-- Outcome of one HTTP request as seen by the framework: a transport failure
before any response, or a response carrying a status code and a body.  The
body is `none` when reading the response text fails. -/
inductive HttpResult where
  | transportErr (msg : String) : HttpResult
  | response (status : Nat) (body : Option Json) : HttpResult

/-- Model of reqwest's `StatusCode::is_success`: 2xx. -/
def statusIsSuccess (s : Nat) : Bool := decide (200 ≤ s ∧ s < 300)

/-- Exit of the get_node_info loop, recording the 1-based attempt on which the
loop returned (`exhausted` means all five attempts were consumed). -/
inductive InfoOutcome where
  | ok (info : NodeInfo) (attempt : Nat) : InfoOutcome
  | textError (attempt : Nat) : InfoOutcome
  | parseError (attempt : Nat) : InfoOutcome
  | exhausted : InfoOutcome
deriving Repr, DecidableEq

/-- Body parsing of get_node_info (src/src/lib.rs lines 191-199): first as a
bare `NodeInfo`, then as an `ApiResponse<NodeInfo>` envelope; the first shape
that parses wins. -/
def parseInfoBody (j : Json) : Option NodeInfo :=
  match decodeNodeInfo j with
  | some info => some info
  | none => decodeApiData j

/-- Retry loop of get_node_info over the remaining attempt numbers.  Returns
the outcome, the trace of attempts on which the transport was consulted, and
the trace of backoff sleeps (in seconds): after a failed attempt `a` the code
sleeps 2 seconds iff `a < 5` (src/src/lib.rs lines 213-215). -/
def getNodeInfoAux (t : Nat → HttpResult) : List Nat → InfoOutcome × List Nat × List Nat
  | [] => (.exhausted, [], [])
  | a :: rest =>
    let retry : InfoOutcome × List Nat × List Nat :=
      let r := getNodeInfoAux t rest
      (r.1, a :: r.2.1, if a < 5 then 2 :: r.2.2 else r.2.2)
    match t a with
    | .transportErr _ => retry
    | .response s body =>
      if statusIsSuccess s then
        match body with
        | none => (.textError a, [a], [])
        | some j =>
          match decodeNodeInfo j with
          | some info => (.ok info a, [a], [])
          | none =>
            match decodeApiData j with
            | some info => (.ok info a, [a], [])
            | none => (.parseError a, [a], [])
      else retry

/-- Model of `WakuTestFramework::get_node_info` (src/src/lib.rs lines
181-219): `for attempt in 1..=5`. -/
def get_node_info (t : Nat → HttpResult) : InfoOutcome × List Nat × List Nat :=
  getNodeInfoAux t [1, 2, 3, 4, 5]

/-- An attempt result that the loop retries past: a transport error or a
response with a non-success status. -/
def attemptFails : HttpResult → Bool
  | .transportErr _ => true
  | .response s _ => !statusIsSuccess s

example :
    get_node_info (fun _ => .transportErr ("refused")) =
      (.exhausted, [1, 2, 3, 4, 5], [2, 2, 2, 2]) := by decide

example :
    get_node_info (fun a =>
      if a < 5 then .response 503 none
      else .response 200 (some (.obj [("enrUri", .str ("enr:x")), ("listenAddresses", .arr [])]))) =
      (.ok ⟨"enr:x", []⟩ 5, [1, 2, 3, 4, 5], [2, 2, 2, 2]) := by decide

example :
    get_node_info (fun _ =>
      .response 200 (some (.obj [("data", .obj [("enrUri", .str ("enr:x")), ("listenAddresses", .arr [(.str ("a"))])])]))) =
      (.ok ⟨"enr:x", ["a"]⟩ 1, [1], []) := by decide

example :
    get_node_info (fun _ => .response 200 (some (.obj []))) =
      (.parseError 1, [1], []) := by decide

theorem getNodeInfoAux_fail (t : Nat → HttpResult) (a : Nat) (rest : List Nat)
    (hf : attemptFails (t a) = true) :
    getNodeInfoAux t (a :: rest) =
      ((getNodeInfoAux t rest).1, a :: (getNodeInfoAux t rest).2.1,
        if a < 5 then 2 :: (getNodeInfoAux t rest).2.2 else (getNodeInfoAux t rest).2.2) := by
  rw [getNodeInfoAux]
  cases ht : t a with
  | transportErr m => rfl
  | response s body =>
    rw [ht] at hf
    simp only [attemptFails, Bool.not_eq_true'] at hf
    simp [hf]

theorem getNodeInfoAux_success (t : Nat → HttpResult) (a : Nat) (rest : List Nat)
    (s : Nat) (j : Json) (info : NodeInfo)
    (ht : t a = .response s (some j)) (hs : statusIsSuccess s = true)
    (hp : parseInfoBody j = some info) :
    getNodeInfoAux t (a :: rest) = (.ok info a, [a], []) := by
  rw [getNodeInfoAux, ht]
  unfold parseInfoBody at hp
  cases hd : decodeNodeInfo j with
  | some i =>
    rw [hd] at hp
    simp only [Option.some.injEq] at hp
    subst hp
    simp [hs, hd]
  | none =>
    rw [hd] at hp
    have hp2 : decodeApiData j = some info := hp
    simp [hs, hd, hp2]

theorem getNodeInfoAux_parseError (t : Nat → HttpResult) (a : Nat) (rest : List Nat)
    (s : Nat) (j : Json)
    (ht : t a = .response s (some j)) (hs : statusIsSuccess s = true)
    (h1 : decodeNodeInfo j = none) (h2 : decodeApiData j = none) :
    getNodeInfoAux t (a :: rest) = (.parseError a, [a], []) := by
  rw [getNodeInfoAux, ht]
  simp [hs, h1, h2]

/-- C1: get_node_info makes at most 5 attempts with a fixed 2-second backoff
between attempts.  If the transport fails (transport error or non-success
status) on the first k < 5 attempts and succeeds with a parseable body on
attempt k+1, the loop returns the parsed record on attempt k+1 having slept
2 seconds after each of the k failed attempts; if every one of the 5 attempts
fails, the loop consults the transport exactly 5 times, sleeps 2 seconds after
each of the first 4 failures, and returns the fatal exhausted outcome. -/
theorem resolve_info_bounded_retry (t : Nat → HttpResult) :
    (∀ k, k < 5 →
      (∀ i, 1 ≤ i → i ≤ k → attemptFails (t i) = true) →
      ∀ s j info, t (k + 1) = .response s (some j) →
        statusIsSuccess s = true → parseInfoBody j = some info →
        get_node_info t = (.ok info (k + 1), List.range' 1 (k + 1), List.replicate k 2)) ∧
    ((∀ i, 1 ≤ i → i ≤ 5 → attemptFails (t i) = true) →
      get_node_info t = (.exhausted, [1, 2, 3, 4, 5], [2, 2, 2, 2])) := by
  constructor
  · intro k hk hfail s j info ht hs hp
    interval_cases k
    · rw [get_node_info, getNodeInfoAux_success t 1 _ s j info ht hs hp]
      simp [List.range']
    · rw [get_node_info, getNodeInfoAux_fail t 1 _ (hfail 1 (by omega) (by omega)),
        getNodeInfoAux_success t 2 _ s j info ht hs hp]
      simp [List.range']
    · rw [get_node_info, getNodeInfoAux_fail t 1 _ (hfail 1 (by omega) (by omega)),
        getNodeInfoAux_fail t 2 _ (hfail 2 (by omega) (by omega)),
        getNodeInfoAux_success t 3 _ s j info ht hs hp]
      simp [List.range']
    · rw [get_node_info, getNodeInfoAux_fail t 1 _ (hfail 1 (by omega) (by omega)),
        getNodeInfoAux_fail t 2 _ (hfail 2 (by omega) (by omega)),
        getNodeInfoAux_fail t 3 _ (hfail 3 (by omega) (by omega)),
        getNodeInfoAux_success t 4 _ s j info ht hs hp]
      simp [List.range']
    · rw [get_node_info, getNodeInfoAux_fail t 1 _ (hfail 1 (by omega) (by omega)),
        getNodeInfoAux_fail t 2 _ (hfail 2 (by omega) (by omega)),
        getNodeInfoAux_fail t 3 _ (hfail 3 (by omega) (by omega)),
        getNodeInfoAux_fail t 4 _ (hfail 4 (by omega) (by omega)),
        getNodeInfoAux_success t 5 _ s j info ht hs hp]
      simp [List.range']
  · intro hfail
    rw [get_node_info, getNodeInfoAux_fail t 1 _ (hfail 1 (by omega) (by omega)),
      getNodeInfoAux_fail t 2 _ (hfail 2 (by omega) (by omega)),
      getNodeInfoAux_fail t 3 _ (hfail 3 (by omega) (by omega)),
      getNodeInfoAux_fail t 4 _ (hfail 4 (by omega) (by omega)),
      getNodeInfoAux_fail t 5 _ (hfail 5 (by omega) (by omega))]
    simp [getNodeInfoAux]

/-- Witness for C1: a transport refusing connections on attempts 1 and 2 and
answering with a parseable record on attempt 3 is resolved on attempt 3 after
two 2-second sleeps. -/
theorem resolve_info_bounded_retry_witness :
    get_node_info (fun a => if a < 3 then .transportErr ("refused")
      else .response 200 (some (.obj [("enrUri", .str ("enr:w")), ("listenAddresses", .arr [])]))) =
      (.ok ⟨"enr:w", []⟩ 3, List.range' 1 3, List.replicate 2 2) := by
  exact (resolve_info_bounded_retry _).1 2 (by omega)
    (by intro i h1 h2; interval_cases i <;> rfl) 200 _ ⟨"enr:w", []⟩ rfl rfl rfl

/-- C2: on a successful HTTP response, get_node_info parses the body first as
a bare record and only then as a {data: record} envelope; the first shape that
parses wins (a bare parse is returned even if the envelope would also parse),
enveloping a document yields exactly the bare document's parse, and if neither
shape parses the loop returns a parse error at that very attempt, consulting
the transport no further and sleeping no more. -/
theorem resolve_info_dual_shape (t : Nat → HttpResult) (j : Json) :
    (decodeApiData (.obj [("data", j)]) = decodeNodeInfo j) ∧
    (∀ s r, t 1 = .response s (some j) → statusIsSuccess s = true →
      decodeNodeInfo j = some r →
      get_node_info t = (.ok r 1, [1], [])) ∧
    (∀ s r, t 1 = .response s (some j) → statusIsSuccess s = true →
      decodeNodeInfo j = none → decodeApiData j = some r →
      get_node_info t = (.ok r 1, [1], [])) ∧
    (∀ s, t 1 = .response s (some j) → statusIsSuccess s = true →
      decodeNodeInfo j = none → decodeApiData j = none →
      get_node_info t = (.parseError 1, [1], [])) := by
  refine ⟨?_, ?_, ?_, ?_⟩
  · cases h : decodeNodeInfo j <;>
      simp [decodeApiData, decodeApiResponse, decodeApiResponseFields, h]
  · intro s r ht hs hd
    rw [get_node_info, getNodeInfoAux_success t 1 _ s j r ht hs]
    rw [parseInfoBody, hd]
  · intro s r ht hs hd he
    rw [get_node_info, getNodeInfoAux_success t 1 _ s j r ht hs]
    rw [parseInfoBody, hd, he]
  · intro s ht hs hd he
    rw [get_node_info, getNodeInfoAux_parseError t 1 _ s j ht hs hd he]

/-- Witness for C2: a document carrying both a bare record and a data
envelope parses as the bare record on attempt 1; its enveloped form parses to
the same record; and an empty object yields a parse error on attempt 1 with
no further attempts. -/
theorem resolve_info_dual_shape_witness :
    decodeApiData (.obj [("data", .obj [("enrUri", .str ("enr:w")), ("listenAddresses", .arr [])])]) =
      decodeNodeInfo (.obj [("enrUri", .str ("enr:w")), ("listenAddresses", .arr [])]) ∧
    get_node_info (fun _ => .response 200
        (some (.obj [("enrUri", .str ("enr:w")), ("listenAddresses", .arr [])]))) =
      (.ok ⟨"enr:w", []⟩ 1, [1], []) ∧
    get_node_info (fun _ => .response 200 (some (.obj [("data",
        .obj [("enrUri", .str ("enr:w")), ("listenAddresses", .arr [])])]))) =
      (.ok ⟨"enr:w", []⟩ 1, [1], []) ∧
    get_node_info (fun _ => .response 204 (some (.obj []))) =
      (.parseError 1, [1], []) := by
  refine ⟨?_, ?_, ?_, ?_⟩
  · exact (resolve_info_dual_shape (fun _ => .response 200 none)
      (.obj [("enrUri", .str ("enr:w")), ("listenAddresses", .arr [])])).1
  · exact (resolve_info_dual_shape _
      (.obj [("enrUri", .str ("enr:w")), ("listenAddresses", .arr [])])).2.1
      200 ⟨"enr:w", []⟩ rfl rfl rfl
  · exact (resolve_info_dual_shape _
      (.obj [("data", .obj [("enrUri", .str ("enr:w")), ("listenAddresses", .arr [])])])).2.2.1
      200 ⟨"enr:w", []⟩ rfl rfl rfl rfl
  · exact (resolve_info_dual_shape _ (.obj [])).2.2.2 204 rfl rfl rfl rfl

/-- Mirror of `struct PeerInfo` (src/src/lib.rs lines 52-58). -/
structure PeerInfo where
  peer_id : String
  multiaddr : String
  connected : Bool
deriving Repr, DecidableEq

/-- Convergence condition polled by wait_for_peer_connection (src/src/lib.rs
line 303): the peer list is non-empty and some entry has connected == true. -/
def peersConverged (peers : List PeerInfo) : Bool :=
  !peers.isEmpty && peers.any (fun p => p.connected)

/-- A poll observation that short-circuits the wait loop: a successful query
whose list satisfies the condition.  A failed query (`if let Ok`) never does. -/
def pollConverged : Except String (List PeerInfo) → Bool
  | .ok peers => peersConverged peers
  | .error _ => false

/-- Loop of wait_for_peer_connection (src/src/lib.rs lines 298-311) over a
sequence of peer-query outcomes: `i` is the index of the next poll, `elapsed`
the whole seconds elapsed so far; each non-converged iteration sleeps a fixed
5 seconds.  Returns the Result value (always Ok) and the number of polls
performed. -/
def waitForPeerAux (polls : Nat → Except String (List PeerInfo)) (timeout : Nat)
    (i : Nat) (elapsed : Nat) : Except String Bool × Nat :=
  if _h : elapsed < timeout then
    match polls i with
    | .ok peers =>
      if peersConverged peers then (.ok true, i + 1)
      else waitForPeerAux polls timeout (i + 1) (elapsed + 5)
    | .error _ => waitForPeerAux polls timeout (i + 1) (elapsed + 5)
  else (.ok false, i)
termination_by timeout - elapsed
decreasing_by all_goals omega

/-- Model of `WakuTestFramework::wait_for_peer_connection`: the loop starts
with zero elapsed time. -/
def wait_for_peer_connection (polls : Nat → Except String (List PeerInfo))
    (timeout : Nat) : Except String Bool × Nat :=
  waitForPeerAux polls timeout 0 0

theorem waitForPeerAux_ok (polls : Nat → Except String (List PeerInfo)) (timeout : Nat) :
    ∀ d i elapsed, timeout ≤ elapsed + d →
      ∃ b n, waitForPeerAux polls timeout i elapsed = (.ok b, n) := by
  intro d
  induction d with
  | zero =>
    intro i elapsed h
    rw [waitForPeerAux, dif_neg (by omega)]
    exact ⟨false, i, rfl⟩
  | succ d ih =>
    intro i elapsed h
    rw [waitForPeerAux]
    by_cases hc : elapsed < timeout
    · rw [dif_pos hc]
      cases hp : polls i with
      | ok peers =>
        dsimp only
        by_cases hcv : peersConverged peers = true
        · rw [if_pos hcv]
          exact ⟨true, i + 1, rfl⟩
        · rw [if_neg hcv]
          exact ih (i + 1) (elapsed + 5) (by omega)
      | error e =>
        exact ih (i + 1) (elapsed + 5) (by omega)
    · rw [dif_neg hc]
      exact ⟨false, i, rfl⟩

theorem waitForPeerAux_true (polls : Nat → Except String (List PeerInfo))
    (timeout k : Nat) (hk : pollConverged (polls k) = true) (ht : 5 * k < timeout) :
    ∀ d i, i + d = k → (∀ m, i ≤ m → m < k → pollConverged (polls m) = false) →
      waitForPeerAux polls timeout i (5 * i) = (.ok true, k + 1) := by
  intro d
  induction d with
  | zero =>
    intro i hi hpre
    have hik : i = k := by omega
    subst hik
    rw [waitForPeerAux, dif_pos (by omega)]
    cases hp : polls i with
    | ok peers =>
      have hk2 : peersConverged peers = true := by rw [hp] at hk; exact hk
      dsimp only
      rw [if_pos hk2]
    | error e =>
      rw [hp] at hk
      exact Bool.noConfusion hk
  | succ d ih =>
    intro i hi hpre
    have hlt : i < k := by omega
    have hf := hpre i (by omega) hlt
    rw [waitForPeerAux, dif_pos (by omega)]
    have harith : 5 * i + 5 = 5 * (i + 1) := by ring
    cases hp : polls i with
    | ok peers =>
      have hf2 : peersConverged peers = false := by rw [hp] at hf; exact hf
      dsimp only
      rw [if_neg (by simp [hf2]), harith]
      exact ih (i + 1) (by omega) (fun m h1 h2 => hpre m (by omega) h2)
    | error e =>
      dsimp only
      rw [harith]
      exact ih (i + 1) (by omega) (fun m h1 h2 => hpre m (by omega) h2)

theorem waitForPeerAux_false (polls : Nat → Except String (List PeerInfo))
    (timeout : Nat) (hnc : ∀ i, 5 * i < timeout → pollConverged (polls i) = false) :
    ∀ d i, timeout ≤ 5 * i + d →
      (waitForPeerAux polls timeout i (5 * i)).1 = .ok false := by
  intro d
  induction d with
  | zero =>
    intro i h
    rw [waitForPeerAux, dif_neg (by omega)]
  | succ d ih =>
    intro i h
    by_cases hc : 5 * i < timeout
    · rw [waitForPeerAux, dif_pos hc]
      have hf := hnc i hc
      have harith : 5 * i + 5 = 5 * (i + 1) := by ring
      cases hp : polls i with
      | ok peers =>
        have hf2 : peersConverged peers = false := by rw [hp] at hf; exact hf
        dsimp only
        rw [if_neg (by simp [hf2]), harith]
        exact ih (i + 1) (by omega)
      | error e =>
        dsimp only
        rw [harith]
        exact ih (i + 1) (by omega)
    · rw [waitForPeerAux, dif_neg hc]

/-- C3: wait_for_peer_connection polls at a fixed 5-second interval and (1)
never returns an error outcome, for any poll outcomes and timeout; (2) returns
true right at the first poll k that observes a non-empty peer list containing
a connected entry, provided that observation happens before the timeout
elapses (k polls of 5 seconds each); (3) returns false when no poll made
before the timeout observes convergence; a failed peer query counts as
not-yet-converged throughout. -/
theorem wait_for_peer_connection_spec (polls : Nat → Except String (List PeerInfo))
    (timeout k : Nat) :
    (∃ b n, wait_for_peer_connection polls timeout = (.ok b, n)) ∧
    (pollConverged (polls k) = true → 5 * k < timeout →
      (∀ m, m < k → pollConverged (polls m) = false) →
      wait_for_peer_connection polls timeout = (.ok true, k + 1)) ∧
    ((∀ i, 5 * i < timeout → pollConverged (polls i) = false) →
      (wait_for_peer_connection polls timeout).1 = .ok false) := by
  refine ⟨?_, ?_, ?_⟩
  · exact waitForPeerAux_ok polls timeout timeout 0 0 (by omega)
  · intro hk ht hpre
    have := waitForPeerAux_true polls timeout k hk ht k 0 (by omega)
      (fun m h1 h2 => hpre m h2)
    rw [wait_for_peer_connection]
    have h0 : 5 * 0 = 0 := by ring
    rw [← h0]
    exact this
  · intro hnc
    have := waitForPeerAux_false polls timeout hnc timeout 0 (by omega)
    rw [wait_for_peer_connection]
    have h0 : 5 * 0 = 0 := by ring
    rw [← h0]
    exact this

/-- Witness for C3: polls observing an empty list, then a disconnected peer,
then a connected peer converge on the third poll (index 2) within a 60-second
timeout, returning true after 3 polls. -/
theorem wait_for_peer_connection_spec_witness :
    wait_for_peer_connection (fun i =>
      if i = 0 then .ok []
      else if i = 1 then .ok [⟨"peerA", "maddrA", false⟩]
      else .ok [⟨"peerB", "maddrB", true⟩]) 60 = (.ok true, 3) := by
  exact (wait_for_peer_connection_spec _ 60 2).2.1 rfl (by omega)
    (by intro m hm; interval_cases m <;> rfl)

/-- Model of `WakuTestFramework::cleanup_node` (src/src/lib.rs lines 339-352):
stop and remove are attempted in order, each failure logged with warn and
swallowed, and the function always returns Ok(()).  The returned list is the
trace of warn logs. -/
def cleanup_node (stopRes removeRes : Except String Unit) :
    Except String Unit × List String :=
  let log1 : List String := match stopRes with
    | .ok _ => []
    | .error e => ["Failed to stop container: " ++ e]
  let log2 : List String := match removeRes with
    | .ok _ => []
    | .error e => ["Failed to remove container: " ++ e]
  (.ok (), log1 ++ log2)

/-- Model of `WakuTestFramework::cleanup_network` (src/src/lib.rs lines
354-362): a removal failure is logged with warn and swallowed. -/
def cleanup_network (removeRes : Except String Unit) :
    Except String Unit × List String :=
  match removeRes with
  | .ok _ => (.ok (), [])
  | .error e => (.ok (), ["Failed to remove network: " ++ e])

/-- Model of `WakuTestFramework::cleanup_existing_containers` (src/src/lib.rs
lines 313-337): the container listing is awaited with `?`, so a listing
failure propagates to the caller; each listed container carrying an id is
logged with info and then stopped and removed with both outcomes discarded
(`let _ =`), without logging those failures. -/
def cleanup_existing_containers (listRes : Except String (List (Option String)))
    (stopC removeC : String → Except String Unit) :
    Except String Unit × List String :=
  match listRes with
  | .error e => (.error e, [])
  | .ok containers =>
    (.ok (), (containers.filterMap id).map (fun cid =>
      let _ := stopC cid
      let _ := removeC cid
      "Cleaning up existing container: " ++ cid))

/-- Counterexample to C4 as stated: C4 requires every cleanup operation to
swallow every underlying runtime failure including the container listing, but
a failing listing makes cleanup_existing_containers return that error to the
caller rather than success. -/
theorem cleanup_list_failure_propagates :
    (cleanup_existing_containers (.error ("daemon unreachable"))
      (fun _ => .ok ()) (fun _ => .ok ())).1 = .error ("daemon unreachable") := rfl

/-- C4 amended: cleanup_node and cleanup_network log and swallow every
stop/remove failure and always return success (also on an already-removed
container, where both stop and remove fail); cleanup_existing_containers
swallows the per-container stop and remove outcomes (without logging them)
and returns success whenever the initial container listing succeeds, but a
failure of the listing itself propagates to the caller. -/
theorem cleanup_best_effort (stopRes removeRes : Except String Unit)
    (containers : List (Option String)) (stopC removeC : String → Except String Unit)
    (e1 e2 : String) :
    (cleanup_node stopRes removeRes).1 = .ok () ∧
    (cleanup_network removeRes).1 = .ok () ∧
    (cleanup_existing_containers (.ok containers) stopC removeC).1 = .ok () ∧
    (cleanup_node (.error e1) (.error e2)).2 =
      ["Failed to stop container: " ++ e1, "Failed to remove container: " ++ e2] ∧
    (cleanup_network (.error e1)).2 = ["Failed to remove network: " ++ e1] ∧
    (cleanup_existing_containers (.error e1) stopC removeC).1 = .error e1 := by
  refine ⟨?_, ?_, rfl, rfl, rfl, rfl⟩
  · cases stopRes <;> cases removeRes <;> rfl
  · cases removeRes <;> rfl

/-- Mirror of `struct ReceivedMessage` (src/src/lib.rs lines 44-50); the
timestamp is a u64. -/
structure ReceivedMessage where
  payload : String
  content_topic : String
  timestamp : Nat
deriving Repr, DecidableEq

def decodeBool : Json → Option Bool
  | .bool b => some b
  | _ => none

/-- Deserialization of a u64 from a JSON number: in range 0..2^64. -/
def decodeU64 : Json → Option Nat
  | .num n => if 0 ≤ n ∧ n < 18446744073709551616 then some n.toNat else none
  | _ => none

/-- Field loop of serde's derived deserializer for `ReceivedMessage`: field
names "payload", "contentTopic", "timestamp". -/
def decodeReceivedMessageFields : List (String × Json) → Option String → Option String → Option Nat → Option ReceivedMessage
  | [], some p, some ct, some ts => some ⟨p, ct, ts⟩
  | [], _, _, _ => none
  | (k, v) :: rest, p0, ct0, ts0 =>
    if k = "payload" then
      match p0, decodeString v with
      | none, some s => decodeReceivedMessageFields rest (some s) ct0 ts0
      | _, _ => none
    else if k = "contentTopic" then
      match ct0, decodeString v with
      | none, some s => decodeReceivedMessageFields rest p0 (some s) ts0
      | _, _ => none
    else if k = "timestamp" then
      match ts0, decodeU64 v with
      | none, some n => decodeReceivedMessageFields rest p0 ct0 (some n)
      | _, _ => none
    else decodeReceivedMessageFields rest p0 ct0 ts0

def decodeReceivedMessage : Json → Option ReceivedMessage
  | .obj fields => decodeReceivedMessageFields fields none none none
  | _ => none

def decodeReceivedMessageList : Json → Option (List ReceivedMessage)
  | .arr items => items.mapM decodeReceivedMessage
  | _ => none

/-- Field loop of serde's derived deserializer for `PeerInfo`: field names
"peerID", "multiaddr", "connected". -/
def decodePeerInfoFields : List (String × Json) → Option String → Option String → Option Bool → Option PeerInfo
  | [], some pid, some ma, some c => some ⟨pid, ma, c⟩
  | [], _, _, _ => none
  | (k, v) :: rest, pid0, ma0, c0 =>
    if k = "peerID" then
      match pid0, decodeString v with
      | none, some s => decodePeerInfoFields rest (some s) ma0 c0
      | _, _ => none
    else if k = "multiaddr" then
      match ma0, decodeString v with
      | none, some s => decodePeerInfoFields rest pid0 (some s) c0
      | _, _ => none
    else if k = "connected" then
      match c0, decodeBool v with
      | none, some b => decodePeerInfoFields rest pid0 ma0 (some b)
      | _, _ => none
    else decodePeerInfoFields rest pid0 ma0 c0

def decodePeerInfo : Json → Option PeerInfo
  | .obj fields => decodePeerInfoFields fields none none none
  | _ => none

def decodePeerInfoList : Json → Option (List PeerInfo)
  | .arr items => items.mapM decodePeerInfo
  | _ => none

/-- Model of `WakuTestFramework::get_messages` (src/src/lib.rs lines 260-278):
a transport failure propagates with context; a success status parses the body
as a JSON array of messages, with any parse failure propagating; a
non-success status yields Ok(vec![]). -/
def get_messages (resp : HttpResult) : Except String (List ReceivedMessage) :=
  match resp with
  | .transportErr e => .error ("Failed to get messages: " ++ e)
  | .response s body =>
    if statusIsSuccess s then
      match body with
      | some j =>
        match decodeReceivedMessageList j with
        | some msgs => .ok msgs
        | none => .error ("Failed to parse messages response")
      | none => .error ("Failed to parse messages response")
    else .ok []

/-- Model of `WakuTestFramework::get_peers` (src/src/lib.rs lines 280-296):
same structure as get_messages over the peers array. -/
def get_peers (resp : HttpResult) : Except String (List PeerInfo) :=
  match resp with
  | .transportErr e => .error ("Failed to get peers: " ++ e)
  | .response s body =>
    if statusIsSuccess s then
      match body with
      | some j =>
        match decodePeerInfoList j with
        | some peers => .ok peers
        | none => .error ("Failed to parse peers response")
      | none => .error ("Failed to parse peers response")
    else .ok []

/-- C5: on any response with a non-success status, get_messages and get_peers
return the empty list rather than an error; on a success status whose body
parses as the expected array, they return the parsed list. -/
theorem list_ops_best_effort (s : Nat) (body : Option Json) (j : Json) :
    (statusIsSuccess s = false →
      get_messages (.response s body) = .ok [] ∧
      get_peers (.response s body) = .ok []) ∧
    (statusIsSuccess s = true →
      (∀ msgs, decodeReceivedMessageList j = some msgs →
        get_messages (.response s (some j)) = .ok msgs) ∧
      (∀ peers, decodePeerInfoList j = some peers →
        get_peers (.response s (some j)) = .ok peers)) := by
  refine ⟨fun hf => ⟨?_, ?_⟩, fun ht => ⟨fun msgs hm => ?_, fun peers hp => ?_⟩⟩
  · simp [get_messages, hf]
  · simp [get_peers, hf]
  · simp [get_messages, ht, hm]
  · simp [get_peers, ht, hp]

/-- Witness for C5: a 404 yields the empty list from both operations, and a
200 carrying a singleton array parses to that singleton. -/
theorem list_ops_best_effort_witness :
    get_messages (.response 404 none) = .ok [] ∧
    get_peers (.response 404 none) = .ok [] ∧
    get_messages (.response 200 (some (.arr [.obj [("payload", .str ("UmVsYXk=")),
        ("contentTopic", .str ("/t")), ("timestamp", .num 7)]]))) =
      .ok [⟨"UmVsYXk=", "/t", 7⟩] ∧
    get_peers (.response 200 (some (.arr [.obj [("peerID", .str ("p1")),
        ("multiaddr", .str ("m1")), ("connected", .bool true)]]))) =
      .ok [⟨"p1", "m1", true⟩] := by
  refine ⟨?_, ?_, ?_, ?_⟩
  · exact ((list_ops_best_effort 404 none .null).1 rfl).1
  · exact ((list_ops_best_effort 404 none .null).1 rfl).2
  · exact ((list_ops_best_effort 200 none _).2 rfl).1 _ rfl
  · exact ((list_ops_best_effort 200 none _).2 rfl).2 _ rfl

/-- C9: the empty-list policy covers only non-success statuses: on a success
status whose body does not parse as the expected JSON array (or cannot be
read), both operations return an error rather than an empty list, and a
transport failure before any response is likewise an error. -/
theorem list_ops_success_parse_failure (s : Nat) (j : Json) (e : String) :
    (statusIsSuccess s = true → decodeReceivedMessageList j = none →
      get_messages (.response s (some j)) = .error ("Failed to parse messages response")) ∧
    (statusIsSuccess s = true → decodePeerInfoList j = none →
      get_peers (.response s (some j)) = .error ("Failed to parse peers response")) ∧
    (statusIsSuccess s = true →
      get_messages (.response s none) = .error ("Failed to parse messages response")) ∧
    (statusIsSuccess s = true →
      get_peers (.response s none) = .error ("Failed to parse peers response")) ∧
    get_messages (.transportErr e) = .error ("Failed to get messages: " ++ e) ∧
    get_peers (.transportErr e) = .error ("Failed to get peers: " ++ e) := by
  refine ⟨fun ht hm => ?_, fun ht hp => ?_, fun ht => ?_, fun ht => ?_, rfl, rfl⟩
  · simp [get_messages, ht, hm]
  · simp [get_peers, ht, hp]
  · simp [get_messages, ht]
  · simp [get_peers, ht]

/-- Witness for C9: a 200 whose body is a bare JSON null fails to parse and
both operations surface an error; a refused connection is an error too. -/
theorem list_ops_success_parse_failure_witness :
    get_messages (.response 200 (some .null)) =
      .error ("Failed to parse messages response") ∧
    get_peers (.response 200 (some .null)) =
      .error ("Failed to parse peers response") ∧
    get_messages (.transportErr ("refused")) =
      .error ("Failed to get messages: " ++ "refused") := by
  refine ⟨?_, ?_, ?_⟩
  · exact (list_ops_success_parse_failure 200 .null ("x")).1 rfl rfl
  · exact (list_ops_success_parse_failure 200 .null ("x")).2.1 rfl rfl
  · exact (list_ops_success_parse_failure 200 .null ("refused")).2.2.2.2.1

/-- Leading-block test: the first list is an initial segment of the second. -/
def charListHasPre : List Char → List Char → Bool
  | [], _ => true
  | _ :: _, [] => false
  | c :: cs, h :: hs => c == h && charListHasPre cs hs

/-- Contiguous-occurrence test of the needle inside the haystack. -/
def charListHasSub : List Char → List Char → Bool
  | hay, needle =>
    match hay with
    | [] => needle.isEmpty
    | _ :: hs => charListHasPre needle hay || charListHasSub hs needle

/-- Model of str::contains with a string pattern: the needle's character list
occurs contiguously in the haystack's. -/
def strContains (hay needle : String) : Bool :=
  charListHasSub hay.toList needle.toList

/-- Model of `WakuTestFramework::setup_network` (src/src/lib.rs lines 83-110):
a successful creation is success, an error whose display text contains
"already exists" is swallowed as success, and any other error propagates. -/
def setup_network (createRes : Except String Unit) : Except String Unit :=
  match createRes with
  | .ok _ => .ok ()
  | .error e => if strContains e ("already exists") then .ok () else .error e

/-- C7: setup_network treats a runtime report that the network already exists
as success, so in a run whose first creation succeeds and whose second fails
with an already-exists report both calls succeed, while every other runtime
failure propagates to the caller unchanged. -/
theorem setup_network_idempotent (e : String) :
    setup_network (.ok ()) = .ok () ∧
    (strContains e ("already exists") = true → setup_network (.error e) = .ok ()) ∧
    (strContains e ("already exists") = false → setup_network (.error e) = .error e) := by
  refine ⟨rfl, fun h => ?_, fun h => ?_⟩
  · simp [setup_network, h]
  · simp [setup_network, h]

/-- Witness for C7: the Docker already-exists message is swallowed on the
second call; an unrelated failure propagates. -/
theorem setup_network_idempotent_witness :
    setup_network (.ok ()) = .ok () ∧
    setup_network (.error ("network with name waku already exists")) = .ok () ∧
    setup_network (.error ("permission denied")) = .error ("permission denied") := by
  refine ⟨(setup_network_idempotent ("x")).1, ?_, ?_⟩
  · exact (setup_network_idempotent _).2.1 (by decide)
  · exact (setup_network_idempotent _).2.2 (by decide)

/-- Mirror of `struct WakuNodeConfig` (src/src/lib.rs lines 365-374); the
ports are u16 values. -/
structure WakuNodeConfig where
  name : String
  rest_port : Nat
  tcp_port : Nat
  websocket_port : Nat
  discv5_port : Nat
  external_ip : String
  bootstrap_node : Option String
deriving Repr, DecidableEq

/-- Mirror of `impl Default for WakuNodeConfig` (src/src/lib.rs lines
376-388). -/
def defaultWakuNodeConfig : WakuNodeConfig :=
  { name := "waku-node", rest_port := 22161, tcp_port := 22162,
    websocket_port := 22163, discv5_port := 22164,
    external_ip := "172.18.111.226", bootstrap_node := none }

/-- Mirror of `struct WakuNode` (src/src/lib.rs lines 11-21). -/
structure WakuNode where
  container_id : String
  name : String
  rest_port : Nat
  tcp_port : Nat
  websocket_port : Nat
  discv5_port : Nat
  external_ip : String
  enr_uri : Option String
deriving Repr, DecidableEq

/-- The `Result` value of get_node_info as seen through `?` by its callers:
the error message of each failing exit. -/
def infoResult : InfoOutcome → Except String NodeInfo
  | .ok info _ => .ok info
  | .textError _ => .error ("Failed to get response text")
  | .parseError _ => .error ("Failed to parse node info response")
  | .exhausted => .error ("Failed to get node info after 5 attempts")

/-- Model of `WakuTestFramework::start_waku_node` (src/src/lib.rs lines
112-160): container creation and start each propagate failure with context;
then the handle is built with enr_uri = None and get_node_info is invoked
through `?`, its enr_uri stored as Some before the handle is returned. -/
def start_waku_node (cfg : WakuNodeConfig) (createRes : Except String String)
    (startRes : Except String Unit) (t : Nat → HttpResult) : Except String WakuNode :=
  match createRes with
  | .error e => .error ("Failed to create container: " ++ e)
  | .ok cid =>
    match startRes with
    | .error e => .error ("Failed to start container: " ++ e)
    | .ok _ =>
      let node : WakuNode :=
        { container_id := cid, name := cfg.name, rest_port := cfg.rest_port,
          tcp_port := cfg.tcp_port, websocket_port := cfg.websocket_port,
          discv5_port := cfg.discv5_port, external_ip := cfg.external_ip,
          enr_uri := none }
      match infoResult (get_node_info t).1 with
      | .error e => .error e
      | .ok info => .ok { node with enr_uri := some info.enr_uri }

/-- Counterexample to C6 as stated: C6 requires every successfully returned
handle to carry a non-empty address record, but with a node whose info
endpoint reports an empty enrUri string the launch succeeds and the handle's
record contents are the empty string. -/
theorem start_waku_node_empty_record :
    start_waku_node defaultWakuNodeConfig (.ok ("cid0")) (.ok ())
      (fun _ => .response 200 (some (.obj [("enrUri", .str ("")),
        ("listenAddresses", .arr [])]))) =
      .ok (WakuNode.mk ("cid0") ("waku-node") 22161 22162 22163 22164
        ("172.18.111.226") (some (""))) := rfl

/-- C6 amended: whenever start_waku_node returns successfully, the handle's
enr_uri is Some — launch invokes the info resolver before returning and
stores the resolved record, so a handle is never returned with the record
unset — but the stored string is exactly what the endpoint reported, which
the code never checks for non-emptiness. -/
theorem start_waku_node_record_set (cfg : WakuNodeConfig)
    (createRes : Except String String) (startRes : Except String Unit)
    (t : Nat → HttpResult) (node : WakuNode)
    (h : start_waku_node cfg createRes startRes t = .ok node) :
    ∃ info attempt, (get_node_info t).1 = .ok info attempt ∧
      node.enr_uri = some info.enr_uri := by
  unfold start_waku_node at h
  cases createRes with
  | error e => exact absurd h (by simp)
  | ok cid =>
    cases startRes with
    | error e => exact absurd h (by simp)
    | ok u =>
      dsimp only at h
      cases ho : (get_node_info t).1 with
      | ok info attempt =>
        rw [ho] at h
        simp only [infoResult] at h
        cases h
        exact ⟨info, attempt, rfl, rfl⟩
      | textError a =>
        rw [ho] at h
        exact absurd h (by simp [infoResult])
      | parseError a =>
        rw [ho] at h
        exact absurd h (by simp [infoResult])
      | exhausted =>
        rw [ho] at h
        exact absurd h (by simp [infoResult])

/-- Witness for C6 (amended): a launch against an endpoint reporting a
non-empty record returns a handle whose enr_uri is that record. -/
theorem start_waku_node_record_set_witness :
    ∃ info attempt,
      (get_node_info (fun _ => .response 200 (some (.obj [("enrUri", .str ("enr:w")),
        ("listenAddresses", .arr [])])))).1 = .ok info attempt ∧
      (WakuNode.mk ("cid0") ("waku-node") 22161 22162 22163 22164 ("172.18.111.226")
        (some ("enr:w"))).enr_uri = some info.enr_uri := by
  exact start_waku_node_record_set defaultWakuNodeConfig (.ok ("cid0")) (.ok ())
    (fun _ => .response 200 (some (.obj [("enrUri", .str ("enr:w")),
      ("listenAddresses", .arr [])])))
    (WakuNode.mk ("cid0") ("waku-node") 22161 22162 22163 22164 ("172.18.111.226")
      (some ("enr:w"))) rfl

/-- Numeric value of a decimal digit character. -/
def digitVal (c : Char) : Nat := c.toNat - 48

/-- Value of a most-significant-first decimal digit string. -/
def digitsVal (l : List Char) : Nat :=
  l.foldl (fun a c => a * 10 + digitVal c) 0

/-- Decimal digit count, matching the recursion of Nat.toDigitsCore. -/
def numDigits10 (n : Nat) : Nat :=
  if h : n < 10 then 1 else numDigits10 (n / 10) + 1
termination_by n
decreasing_by omega

theorem digitVal_digitChar (d : Nat) (h : d < 10) :
    digitVal (Nat.digitChar d) = d := by
  interval_cases d <;> rfl

theorem numDigits10_lt (n : Nat) (h : n < 10) : numDigits10 n = 1 := by
  rw [numDigits10, dif_pos h]

theorem numDigits10_ge (n : Nat) (h : 10 ≤ n) :
    numDigits10 n = numDigits10 (n / 10) + 1 := by
  rw [numDigits10, dif_neg (by omega)]

theorem foldl_toDigitsCore (fuel : Nat) : ∀ n ds a, n < 10 ^ (fuel + 1) →
    (Nat.toDigitsCore 10 (fuel + 1) n ds).foldl (fun x c => x * 10 + digitVal c) a =
      ds.foldl (fun x c => x * 10 + digitVal c) (a * 10 ^ numDigits10 n + n) := by
  induction fuel with
  | zero =>
    intro n ds a h
    have h9 : n < 10 := by simpa using h
    rw [Nat.toDigitsCore]
    rw [if_pos (by omega : n / 10 = 0), List.foldl_cons]
    congr 1
    rw [digitVal_digitChar (n % 10) (by omega), numDigits10_lt n h9, pow_one]
    omega
  | succ fuel ih =>
    intro n ds a h
    rw [Nat.toDigitsCore]
    by_cases h10 : n / 10 = 0
    · rw [if_pos h10, List.foldl_cons]
      congr 1
      rw [digitVal_digitChar (n % 10) (by omega), numDigits10_lt n (by omega), pow_one]
      omega
    · rw [if_neg h10]
      rw [ih (n / 10) (Nat.digitChar (n % 10) :: ds) a
        ((Nat.div_lt_iff_lt_mul (by norm_num)).2 (by rw [← pow_succ]; exact h))]
      rw [List.foldl_cons]
      congr 1
      rw [digitVal_digitChar (n % 10) (by omega), numDigits10_ge n (by omega), pow_succ]
      have hdm := Nat.div_add_mod n 10
      calc (a * 10 ^ numDigits10 (n / 10) + n / 10) * 10 + n % 10
          = a * (10 ^ numDigits10 (n / 10) * 10) + (10 * (n / 10) + n % 10) := by ring
        _ = a * (10 ^ numDigits10 (n / 10) * 10) + n := by rw [hdm]

theorem lt_ten_pow (n : Nat) : n < 10 ^ (n + 1) := by
  induction n with
  | zero => norm_num
  | succ n ih =>
    have hp : 0 < 10 ^ (n + 1) := by positivity
    calc n + 1 ≤ 10 ^ (n + 1) := ih
      _ < 10 ^ (n + 2) := Nat.pow_lt_pow_succ (by norm_num)

theorem digitsVal_toDigits (n : Nat) : digitsVal (Nat.toDigits 10 n) = n := by
  rw [Nat.toDigits, digitsVal, foldl_toDigitsCore n n [] 0 (lt_ten_pow n)]
  simp

theorem natRepr_inj {m n : Nat} (h : Nat.repr m = Nat.repr n) : m = n := by
  have hdata : Nat.toDigits 10 m = Nat.toDigits 10 n := congrArg String.data h
  have hm := digitsVal_toDigits m
  rw [hdata, digitsVal_toDigits n] at hm
  omega

/-- Mirror of bollard's `PortBinding` as used here: optional host ip and host
port strings. -/
structure PortBinding where
  host_ip : Option String
  host_port : Option String
deriving Repr, DecidableEq

/-- HashMap::insert on an association-list model: an existing key's value is
overwritten in place, a new key is appended. -/
def mapInsert (m : List (String × α)) (k : String) (v : α) : List (String × α) :=
  if m.any (fun kv => kv.1 == k) then
    m.map (fun kv => if kv.1 == k then (k, v) else kv)
  else m ++ [(k, v)]

/-- Model of `create_port_bindings` (src/src/lib.rs lines 390-426): four
insertions keyed by the formatted port strings, in source order, each port
bound to itself on the host. -/
def create_port_bindings (config : WakuNodeConfig) :
    List (String × List PortBinding) :=
  let b1 := mapInsert [] (Nat.repr config.rest_port ++ "/tcp")
    [⟨none, some (Nat.repr config.rest_port)⟩]
  let b2 := mapInsert b1 (Nat.repr config.tcp_port ++ "/tcp")
    [⟨none, some (Nat.repr config.tcp_port)⟩]
  let b3 := mapInsert b2 (Nat.repr config.websocket_port ++ "/tcp")
    [⟨none, some (Nat.repr config.websocket_port)⟩]
  mapInsert b3 (Nat.repr config.discv5_port ++ "/udp")
    [⟨none, some (Nat.repr config.discv5_port)⟩]

/-- Model of `create_exposed_ports` (src/src/lib.rs lines 428-435): the same
four keys mapped to the empty HashMap, modelled as the unit value. -/
def create_exposed_ports (config : WakuNodeConfig) : List (String × Unit) :=
  let p1 := mapInsert [] (Nat.repr config.rest_port ++ "/tcp") ()
  let p2 := mapInsert p1 (Nat.repr config.tcp_port ++ "/tcp") ()
  let p3 := mapInsert p2 (Nat.repr config.websocket_port ++ "/tcp") ()
  mapInsert p3 (Nat.repr config.discv5_port ++ "/udp") ()

theorem mapInsert_new (m : List (String × α)) (k : String) (v : α)
    (h : ∀ kv, kv ∈ m → kv.1 ≠ k) : mapInsert m k v = m ++ [(k, v)] := by
  have hc : m.any (fun kv => kv.1 == k) = false := by
    rw [List.any_eq_false]
    intro kv hkv
    simp [h kv hkv]
  rw [mapInsert, hc]
  simp

theorem tcp_key_ne (a b : Nat) (h : a ≠ b) :
    Nat.repr a ++ "/tcp" ≠ Nat.repr b ++ "/tcp" := by
  intro he
  apply h
  apply natRepr_inj
  have hd : (Nat.repr a).data ++ ("/tcp" : String).data =
      (Nat.repr b).data ++ ("/tcp" : String).data := congrArg String.data he
  have := List.append_cancel_right hd
  exact congrArg List.asString this

theorem tcp_udp_key_ne (a b : Nat) : Nat.repr a ++ "/tcp" ≠ Nat.repr b ++ "/udp" := by
  intro he
  have hd : (Nat.repr a).data ++ ("/tcp" : String).data =
      (Nat.repr b).data ++ ("/udp" : String).data := congrArg String.data he
  have hlen : (("/tcp" : String).data).length = (("/udp" : String).data).length := rfl
  have := (List.append_inj' hd hlen).2
  exact absurd this (by decide)

theorem quadInsert (k1 k2 k3 k4 : String) (v1 v2 v3 v4 : α)
    (h12 : k1 ≠ k2) (h13 : k1 ≠ k3) (h14 : k1 ≠ k4)
    (h23 : k2 ≠ k3) (h24 : k2 ≠ k4) (h34 : k3 ≠ k4) :
    mapInsert (mapInsert (mapInsert (mapInsert [] k1 v1) k2 v2) k3 v3) k4 v4 =
      [(k1, v1), (k2, v2), (k3, v3), (k4, v4)] := by
  rw [mapInsert_new [] k1 v1 (fun kv h => absurd h (List.not_mem_nil kv))]
  simp only [List.nil_append]
  rw [mapInsert_new [(k1, v1)] k2 v2 (by
    intro kv h
    simp only [List.mem_singleton] at h
    subst h
    exact h12)]
  simp only [List.cons_append, List.nil_append]
  rw [mapInsert_new [(k1, v1), (k2, v2)] k3 v3 (by
    intro kv h
    simp only [List.mem_cons, List.mem_singleton] at h
    rcases h with h | h | h
    · subst h; exact h13
    · subst h; exact h23
    · simp at h)]
  simp only [List.cons_append, List.nil_append]
  rw [mapInsert_new [(k1, v1), (k2, v2), (k3, v3)] k4 v4 (by
    intro kv h
    simp only [List.mem_cons, List.mem_singleton] at h
    rcases h with h | h | h | h
    · subst h; exact h14
    · subst h; exact h24
    · subst h; exact h34
    · simp at h)]
  simp only [List.cons_append, List.nil_append]

/-- C10: the config translation does not enforce the unique-ports invariant.
For every config whose three TCP ports (rest, tcp, websocket) are pairwise
distinct, create_port_bindings and create_exposed_ports each produce exactly
four entries — three /tcp keys and one /udp key, each port mapped to itself
on the host — while the config whose rest and tcp ports are both 22161
silently collapses both maps to three entries. -/
theorem port_map_translation (config : WakuNodeConfig)
    (h1 : config.rest_port ≠ config.tcp_port)
    (h2 : config.rest_port ≠ config.websocket_port)
    (h3 : config.tcp_port ≠ config.websocket_port) :
    create_port_bindings config =
      [(Nat.repr config.rest_port ++ "/tcp", [⟨none, some (Nat.repr config.rest_port)⟩]),
       (Nat.repr config.tcp_port ++ "/tcp", [⟨none, some (Nat.repr config.tcp_port)⟩]),
       (Nat.repr config.websocket_port ++ "/tcp", [⟨none, some (Nat.repr config.websocket_port)⟩]),
       (Nat.repr config.discv5_port ++ "/udp", [⟨none, some (Nat.repr config.discv5_port)⟩])] ∧
    create_exposed_ports config =
      [(Nat.repr config.rest_port ++ "/tcp", ()),
       (Nat.repr config.tcp_port ++ "/tcp", ()),
       (Nat.repr config.websocket_port ++ "/tcp", ()),
       (Nat.repr config.discv5_port ++ "/udp", ())] ∧
    (create_port_bindings (WakuNodeConfig.mk ("waku-node") 22161 22161 22163 22164
      ("172.18.111.226") none)).length = 3 ∧
    (create_exposed_ports (WakuNodeConfig.mk ("waku-node") 22161 22161 22163 22164
      ("172.18.111.226") none)).length = 3 := by
  refine ⟨?_, ?_, by decide, by decide⟩
  · exact quadInsert _ _ _ _ _ _ _ _
      (tcp_key_ne _ _ h1) (tcp_key_ne _ _ h2) (tcp_udp_key_ne _ _)
      (tcp_key_ne _ _ h3) (tcp_udp_key_ne _ _) (tcp_udp_key_ne _ _)
  · exact quadInsert _ _ _ _ _ _ _ _
      (tcp_key_ne _ _ h1) (tcp_key_ne _ _ h2) (tcp_udp_key_ne _ _)
      (tcp_key_ne _ _ h3) (tcp_udp_key_ne _ _) (tcp_udp_key_ne _ _)

/-- Witness for C10: the default config's ports are pairwise distinct and
translate to the full four-entry maps. -/
theorem port_map_translation_witness :
    create_port_bindings defaultWakuNodeConfig =
      [(Nat.repr 22161 ++ "/tcp", [⟨none, some (Nat.repr 22161)⟩]),
       (Nat.repr 22162 ++ "/tcp", [⟨none, some (Nat.repr 22162)⟩]),
       (Nat.repr 22163 ++ "/tcp", [⟨none, some (Nat.repr 22163)⟩]),
       (Nat.repr 22164 ++ "/udp", [⟨none, some (Nat.repr 22164)⟩])] := by
  exact (port_map_translation defaultWakuNodeConfig
    (by decide) (by decide) (by decide)).1

/-- Alphabet of the base64 crate's STANDARD engine. -/
def base64Table : List Char :=
  ['A', 'B', 'C', 'D', 'E', 'F', 'G', 'H', 'I', 'J', 'K', 'L', 'M',
   'N', 'O', 'P', 'Q', 'R', 'S', 'T', 'U', 'V', 'W', 'X', 'Y', 'Z',
   'a', 'b', 'c', 'd', 'e', 'f', 'g', 'h', 'i', 'j', 'k', 'l', 'm',
   'n', 'o', 'p', 'q', 'r', 's', 't', 'u', 'v', 'w', 'x', 'y', 'z',
   '0', '1', '2', '3', '4', '5', '6', '7', '8', '9', '+', '/']

def b64Char (n : Nat) : Char := base64Table.getD n 'A'

def b64Index (c : Char) : Option Nat :=
  base64Table.findIdx? (fun x => x == c)

theorem b64Val (n : Nat) (h : n < 64) : b64Index (b64Char n) = some n := by
  interval_cases n <;> rfl

theorem b64Char_ne_pad (n : Nat) : b64Char n ≠ '=' := by
  by_cases h : n < 64
  · interval_cases n <;> decide
  · rw [b64Char, List.getD_eq_default]
    · decide
    · have hl : base64Table.length = 64 := rfl
      omega

/-- Standard base64 encoding of a byte list (values < 256): the encoding the
base64 crate's STANDARD engine applies to the UTF-8 bytes of the content in
create_test_message (src/src/lib.rs line 467). -/
def base64EncodeList : List Nat → List Char
  | [] => []
  | [a] => [b64Char (a / 4), b64Char (a % 4 * 16), '=', '=']
  | [a, b] => [b64Char (a / 4), b64Char (a % 4 * 16 + b / 16), b64Char (b % 16 * 4), '=']
  | a :: b :: c :: rest =>
    b64Char (a / 4) :: b64Char (a % 4 * 16 + b / 16) ::
      b64Char (b % 16 * 4 + c / 64) :: b64Char (c % 64) :: base64EncodeList rest

/-- Standard base64 decoding, the inbound inverse: four characters at a time,
with canonical padding handling. -/
def base64DecodeList : List Char → Option (List Nat)
  | [] => some []
  | c1 :: c2 :: c3 :: c4 :: rest =>
    match b64Index c1, b64Index c2 with
    | some n1, some n2 =>
      if c3 = '=' then
        if c4 = '=' ∧ rest = [] then
          if n2 % 16 = 0 then some [n1 * 4 + n2 / 16] else none
        else none
      else
        match b64Index c3 with
        | some n3 =>
          if c4 = '=' then
            if rest = [] then
              if n3 % 4 = 0 then some [n1 * 4 + n2 / 16, n2 % 16 * 16 + n3 / 4]
              else none
            else none
          else
            match b64Index c4 with
            | some n4 =>
              match base64DecodeList rest with
              | some tl => some ((n1 * 4 + n2 / 16) :: (n2 % 16 * 16 + n3 / 4) ::
                  (n3 % 4 * 64 + n4) :: tl)
              | none => none
            | none => none
        | none => none
    | _, _ => none
  | _ => none

theorem base64_roundtrip : ∀ l : List Nat, (∀ b, b ∈ l → b < 256) →
    base64DecodeList (base64EncodeList l) = some l := by
  intro l
  induction l using base64EncodeList.induct with
  | case1 => intro hb; rfl
  | case2 a =>
    intro hb
    have ha : a < 256 := hb a (by simp)
    have h1 : b64Index (b64Char (a / 4)) = some (a / 4) := b64Val _ (by omega)
    have h2 : b64Index (b64Char (a % 4 * 16)) = some (a % 4 * 16) := b64Val _ (by omega)
    simp only [base64EncodeList, base64DecodeList, h1, h2, if_true, and_self]
    rw [if_pos (by omega : a % 4 * 16 % 16 = 0)]
    have he : a / 4 * 4 + a % 4 * 16 / 16 = a := by omega
    rw [he]
  | case3 a b =>
    intro hb
    have ha : a < 256 := hb a (by simp)
    have hb2 : b < 256 := hb b (by simp)
    have h1 : b64Index (b64Char (a / 4)) = some (a / 4) := b64Val _ (by omega)
    have h2 : b64Index (b64Char (a % 4 * 16 + b / 16)) = some (a % 4 * 16 + b / 16) :=
      b64Val _ (by omega)
    have h3 : b64Index (b64Char (b % 16 * 4)) = some (b % 16 * 4) := b64Val _ (by omega)
    simp only [base64EncodeList, base64DecodeList, h1, h2]
    rw [if_neg (b64Char_ne_pad _)]
    simp only [h3, if_true]
    rw [if_pos (by omega : b % 16 * 4 % 4 = 0)]
    have he1 : a / 4 * 4 + (a % 4 * 16 + b / 16) / 16 = a := by omega
    have he2 : (a % 4 * 16 + b / 16) % 16 * 16 + b % 16 * 4 / 4 = b := by omega
    rw [he1, he2]
  | case4 a b c rest ih =>
    intro hb
    have ha : a < 256 := hb a (by simp)
    have hb2 : b < 256 := hb b (by simp)
    have hc : c < 256 := hb c (by simp)
    have h1 : b64Index (b64Char (a / 4)) = some (a / 4) := b64Val _ (by omega)
    have h2 : b64Index (b64Char (a % 4 * 16 + b / 16)) = some (a % 4 * 16 + b / 16) :=
      b64Val _ (by omega)
    have h3 : b64Index (b64Char (b % 16 * 4 + c / 64)) = some (b % 16 * 4 + c / 64) :=
      b64Val _ (by omega)
    have h4 : b64Index (b64Char (c % 64)) = some (c % 64) := b64Val _ (by omega)
    have hrest := ih (fun x hx => hb x (by simp [hx]))
    simp only [base64EncodeList, base64DecodeList, h1, h2]
    rw [if_neg (b64Char_ne_pad _)]
    simp only [h3]
    rw [if_neg (b64Char_ne_pad _)]
    simp only [h4, hrest]
    have he1 : a / 4 * 4 + (a % 4 * 16 + b / 16) / 16 = a := by omega
    have he2 : (a % 4 * 16 + b / 16) % 16 * 16 + (b % 16 * 4 + c / 64) / 4 = b := by omega
    have he3 : (b % 16 * 4 + c / 64) % 4 * 64 + c % 64 = c := by omega
    rw [he1, he2, he3]

/-- Mirror of `struct Message` (src/src/lib.rs lines 36-42); the timestamp is
a u64 of seconds since the epoch. -/
structure Message where
  payload : String
  content_topic : String
  timestamp : Nat
deriving Repr, DecidableEq

/-- Model of `create_test_message` (src/src/lib.rs lines 463-474): the
payload is the STANDARD base64 encoding of the content's UTF-8 bytes, the
topic is copied verbatim, and the timestamp is the caller's clock reading
(SystemTime::now), passed here explicitly. -/
def create_test_message (content topic : String) (now : Nat) : Message :=
  { payload := (base64EncodeList (content.toUTF8.toList.map (fun b => b.toNat))).asString,
    content_topic := topic,
    timestamp := now }

/-- C8: outbound encoding and inbound decoding are exact inverses: for every
content string, topic and clock reading, the message built by
create_test_message carries content_topic equal to the topic and a payload
whose base64 decoding yields exactly the content's original UTF-8 bytes. -/
theorem create_test_message_roundtrip (content topic : String) (now : Nat) :
    (create_test_message content topic now).content_topic = topic ∧
    base64DecodeList (create_test_message content topic now).payload.data =
      some (content.toUTF8.toList.map (fun b => b.toNat)) := by
  refine ⟨rfl, ?_⟩
  exact base64_roundtrip (content.toUTF8.toList.map (fun b => b.toNat)) (by
    intro x hx
    simp only [List.mem_map] at hx
    obtain ⟨u, _, rfl⟩ := hx
    have h8 := u.toNat_lt
    have h2 : (2 : Nat) ^ 8 = 256 := by norm_num
    omega)

example :
    base64EncodeList [82, 101, 108, 97, 121] = "UmVsYXk=".data ∧
    base64DecodeList ("UmVsYXk=".data) = some [82, 101, 108, 97, 121] ∧
    (create_test_message ("Relay works!!") ("/my-app/2/chatroom-1/proto") 1700000000).content_topic =
      "/my-app/2/chatroom-1/proto" := by
  refine ⟨by decide, by decide, rfl⟩
